import Mathlib

/-!
Verification of the gl-basic-renderer core: a shallow embedding of the
context-arbitration subsystem (`RenderingSystem`), the `Texture` resource
lifecycle, and the primitive drawers' lazy shared-resource pattern, with
theorems settling the specification claims.

External collaborators (GLFW, GLAD, OpenGL, stb_image) are modelled as
oracles: each embedded operation takes the responses the real library
calls would produce during that operation (window-creation result,
generated texture id, error flag, decode result) as explicit arguments,
and records the calls it issues as an explicit trace.
-/

/-! ## Rendering system (src/rendering_system.cpp) -/

/-- State of the `RenderingSystem` singleton: the fields of the class in
src/rendering_system.hpp, with the GLFW window pointer as `Option Nat`
(`none` = null) and the `std::mutex` as a locked flag, plus the
thread-global "current context" binding set by `glfwMakeContextCurrent`
(`none` after `glfwMakeContextCurrent(nullptr)`). -/
structure RSState where
  windowWidth : Int
  windowHeight : Int
  windowTitle : String
  window : Option Nat
  initialized : Bool
  mutexLocked : Bool
  contextCurrent : Option Nat
deriving Repr

/-- The state produced by the private constructor `RenderingSystem()`:
dimensions zero, empty title, null window, not initialized, mutex free. -/
def RSState.fresh : RSState :=
  { windowWidth := 0, windowHeight := 0, windowTitle := "",
    window := none, initialized := false, mutexLocked := false,
    contextCurrent := none }

/-- Result of a call that may block on `std::mutex::lock`: either the call
returns (with a boolean result and the updated state), or it blocks until
another thread releases the mutex. -/
inductive TakeResult where
  | returns (acquired : Bool) (s : RSState)
  | blocks
deriving Repr

/-- Embeds `RenderingSystem::takeContext(bool noHang)`
(src/rendering_system.cpp lines 14-31): if initialized and the window is
non-null, either `try_lock` (noHang) — on success make the context current
and return true, on contention return false at once — or `lock`
(blocking), which blocks while the mutex is held; otherwise return false. -/
def takeContext (noHang : Bool) (s : RSState) : TakeResult :=
  if s.initialized && s.window.isSome then
    if noHang then
      if s.mutexLocked then
        TakeResult.returns false s
      else
        TakeResult.returns true
          { s with mutexLocked := true, contextCurrent := s.window }
    else
      if s.mutexLocked then
        TakeResult.blocks
      else
        TakeResult.returns true
          { s with mutexLocked := true, contextCurrent := s.window }
  else
    TakeResult.returns false s

/-- Embeds `RenderingSystem::releaseContext()` (src/rendering_system.cpp
lines 33-41): if initialized and the window is non-null, unconditionally
unbind the context, unlock the mutex and return true; otherwise return
false and change nothing. -/
def releaseContext (s : RSState) : Bool × RSState :=
  if s.initialized && s.window.isSome then
    (true, { s with contextCurrent := none, mutexLocked := false })
  else
    (false, s)

/-- Responses of the GLFW/GLAD collaborators during one `setupGLFW` call:
whether `glfwInit` succeeds, the window `glfwCreateWindow` returns
(`none` = null), and whether `gladLoadGL` succeeds. -/
structure GlfwEnv where
  glfwInitOk : Bool
  createdWindow : Option Nat
  gladOk : Bool
deriving Repr

/-- Embeds `RenderingSystem::setupGLFW()` (src/rendering_system.cpp lines
80-114): fails if `glfwInit` fails; stores the created window (failing if
null); makes the context current; fails if `gladLoadGL` fails (note the
window pointer is not cleared on that path); enables blending. -/
def setupGLFW (env : GlfwEnv) (s : RSState) : Bool × RSState :=
  if !env.glfwInitOk then
    (false, s)
  else
    match env.createdWindow with
    | none => (false, s)
    | some w =>
      let s1 := { s with window := some w, contextCurrent := some w }
      if !env.gladOk then (false, s1) else (true, s1)

/-- Embeds `RenderingSystem::initialize(width, height, title)`
(src/rendering_system.cpp lines 58-74): if already initialized, return
true immediately without touching any field; otherwise store the
arguments, run `setupGLFW`, and set the initialized flag on success. -/
def initializeSystem (env : GlfwEnv) (w h : Int) (title : String)
    (s : RSState) : Bool × RSState :=
  if s.initialized then
    (true, s)
  else
    let s1 := { s with windowWidth := w, windowHeight := h,
                       windowTitle := title }
    let r := setupGLFW env s1
    if r.1 then (true, { r.2 with initialized := true }) else (false, r.2)

/-- C3: a non-blocking `takeContext` while the mutex is held returns
failure at once (it `returns`, never `blocks`) with the state unchanged;
and in either mode, if the system is not initialized the call returns
failure with the state unchanged. -/
theorem takeContext_contention_and_uninitialized (s : RSState) :
    (s.mutexLocked = true → takeContext true s = TakeResult.returns false s)
    ∧ (s.initialized = false →
        ∀ noHang : Bool, takeContext noHang s = TakeResult.returns false s) := by
  constructor
  · intro hm
    unfold takeContext
    by_cases hi : s.initialized && s.window.isSome <;> simp [hi, hm]
  · intro hinit noHang
    unfold takeContext
    simp [hinit]

/-- A fresh state whose mutex happens to be held by some thread. -/
def lockedFresh : RSState := { RSState.fresh with mutexLocked := true }

/-- A state that has been initialized with a live window, mutex free. -/
def readyState : RSState :=
  { RSState.fresh with initialized := true, window := some 1 }

/-- Witness for C3 at a concrete locked, uninitialized state. -/
theorem takeContext_contention_and_uninitialized_witness :
    (takeContext true lockedFresh = TakeResult.returns false lockedFresh)
    ∧ (takeContext false lockedFresh = TakeResult.returns false lockedFresh) :=
  ⟨(takeContext_contention_and_uninitialized _).1 rfl,
   (takeContext_contention_and_uninitialized _).2 rfl false⟩

/-- C8: `initialize` is idempotent while already initialized — it returns
success and leaves every field of the state unchanged, whatever the
arguments and whatever the windowing library would have answered. -/
theorem initializeSystem_idempotent (env : GlfwEnv) (w h : Int)
    (title : String) (s : RSState) (hinit : s.initialized = true) :
    initializeSystem env w h title s = (true, s) := by
  unfold initializeSystem
  simp [hinit]

/-- A GLFW environment in which every collaborator call fails. -/
def failingEnv : GlfwEnv :=
  { glfwInitOk := false, createdWindow := none, gladOk := false }

/-- Witness for C8 at a concrete initialized state. -/
theorem initializeSystem_idempotent_witness :
    initializeSystem failingEnv 7 9 "other" readyState = (true, readyState) :=
  initializeSystem_idempotent _ 7 9 "other" _ rfl

/-- C10: whenever the system is initialized with a live window,
`releaseContext` unbinds the context, unlocks the mutex and returns true —
with no hypothesis that the mutex was held by the caller (the misuse of
releasing without acquiring is not detected); it returns false doing
nothing exactly when uninitialized or windowless. -/
theorem releaseContext_unconditional (s : RSState) :
    (s.initialized = true → s.window.isSome = true →
      releaseContext s
        = (true, { s with contextCurrent := none, mutexLocked := false }))
    ∧ (s.initialized = false ∨ s.window = none →
      releaseContext s = (false, s)) := by
  constructor
  · intro hi hw
    unfold releaseContext
    simp [hi, hw]
  · intro h
    unfold releaseContext
    rcases h with h | h <;> simp [h]

/-- Witness for C10: releasing at a concrete initialized state whose mutex
is free (never acquired) still succeeds; releasing on a fresh state fails. -/
theorem releaseContext_unconditional_witness :
    (releaseContext readyState
      = (true, { readyState with contextCurrent := none, mutexLocked := false }))
    ∧ releaseContext RSState.fresh = (false, RSState.fresh) :=
  ⟨(releaseContext_unconditional _).1 rfl rfl,
   (releaseContext_unconditional _).2 (Or.inl rfl)⟩

/-! ## Texture (src/texture/texture.cpp) -/

/-- Internal texture format (`Texture::Format` in src/texture/texture.hpp). -/
inductive Texture.Format where
  | RGB
  | RGBA
  | DEPTH
  | DEPTH_STENCIL
deriving DecidableEq, Repr

/-- Texture dimensionality (`Texture::Type` in src/texture/texture.hpp). -/
inductive Texture.TexType where
  | TEXTURE_2D
  | TEXTURE_CUBE_MAP
deriving DecidableEq, Repr

/-- One call issued to OpenGL or stb_image during a texture operation;
texture operations return the list of calls they made, so that "no GPU
operation was attempted" can be stated as an empty (or GL-free) trace. -/
inductive GLCall where
  | deleteTextures (id : Nat)
  | genTextures (ret : Nat)
  | bindTexture (id : Nat)
  | texImage2D
  | texParameteri
  | pixelStorei
  | getIntegerv
  | getError
  | stbiSetFlip
  | stbiLoad
  | stbiImageFree
deriving DecidableEq, Repr

/-- The fields of `class Texture` (src/texture/texture.hpp): the GL handle
(0 = invalid sentinel), dimensionality, internal format, and pixel
dimensions. -/
structure Texture where
  texture_id : Nat
  texture_type : Texture.TexType
  internal_format : Texture.Format
  width : Int
  height : Int
deriving DecidableEq, Repr

/-- The state established by the default constructor `Texture::Texture()`
(src/texture/texture.cpp lines 67-73). -/
def defaultTexture : Texture :=
  { texture_id := 0, texture_type := Texture.TexType.TEXTURE_2D,
    internal_format := Texture.Format.RGBA, width := 0, height := 0 }

/-- Embeds `Texture::isValid()` (src/texture/texture.hpp):
`texture_id != 0`. -/
def Texture.isValid (t : Texture) : Bool :=
  t.texture_id != 0

/-- Embeds `Texture::create(width, height, format, type)`
(src/texture/texture.cpp lines 81-132). `genId` is the handle
`glGenTextures` writes (0 = allocation failure) and `glError` whether
`glGetError` reports an error after configuration. Rejects non-positive
dimensions before any GL call; deletes any existing texture; writes the
generated handle into `texture_id` and fails if it is 0; records the new
attributes; allocates and configures storage; on a GL error deletes the
new handle and zeroes `texture_id` (the other fields keep the values just
assigned). -/
def Texture.create (w h : Int) (fmt : Texture.Format) (ty : Texture.TexType)
    (genId : Nat) (glError : Bool) (t : Texture) :
    Bool × Texture × List GLCall :=
  if w ≤ 0 ∨ h ≤ 0 then
    (false, t, [])
  else
    let delTrace :=
      if t.texture_id ≠ 0 then [GLCall.deleteTextures t.texture_id] else []
    let t1 := { t with texture_id := genId }
    if genId = 0 then
      (false, t1, delTrace ++ [GLCall.genTextures genId])
    else
      let t2 := { t1 with width := w, height := h, texture_type := ty,
                          internal_format := fmt }
      let cfgTrace :=
        [GLCall.bindTexture genId]
          ++ (if ty = Texture.TexType.TEXTURE_2D then [GLCall.texImage2D] else [])
          ++ [GLCall.texParameteri, GLCall.texParameteri, GLCall.texParameteri,
              GLCall.texParameteri, GLCall.bindTexture 0, GLCall.getError]
      if glError then
        (false, { t2 with texture_id := 0 },
         delTrace ++ [GLCall.genTextures genId] ++ cfgTrace
           ++ [GLCall.deleteTextures genId])
      else
        (true, t2, delTrace ++ [GLCall.genTextures genId] ++ cfgTrace)

/-- Embeds `Texture::loadFromData(data, width, height, format)`
(src/texture/texture.cpp lines 169-224). `dataNull` models a null `data`
pointer. Rejects null data or non-positive dimensions before any GL call;
deletes any existing texture; fails if `glGenTextures` yields 0; records
the new attributes (type forced to `TEXTURE_2D`); uploads with 1-byte
unpack alignment restored afterward; on a GL error deletes the new handle
and zeroes `texture_id`. -/
def Texture.loadFromData (dataNull : Bool) (w h : Int) (fmt : Texture.Format)
    (genId : Nat) (glError : Bool) (t : Texture) :
    Bool × Texture × List GLCall :=
  if dataNull = true ∨ w ≤ 0 ∨ h ≤ 0 then
    (false, t, [])
  else
    let delTrace :=
      if t.texture_id ≠ 0 then [GLCall.deleteTextures t.texture_id] else []
    let t1 := { t with texture_id := genId }
    if genId = 0 then
      (false, t1, delTrace ++ [GLCall.genTextures genId])
    else
      let t2 := { t1 with width := w, height := h,
                          texture_type := Texture.TexType.TEXTURE_2D,
                          internal_format := fmt }
      let uploadTrace :=
        [GLCall.bindTexture genId, GLCall.getIntegerv, GLCall.pixelStorei,
         GLCall.texImage2D, GLCall.pixelStorei, GLCall.texParameteri,
         GLCall.texParameteri, GLCall.texParameteri, GLCall.texParameteri,
         GLCall.bindTexture 0, GLCall.getError]
      if glError then
        (false, { t2 with texture_id := 0 },
         delTrace ++ [GLCall.genTextures genId] ++ uploadTrace
           ++ [GLCall.deleteTextures genId])
      else
        (true, t2, delTrace ++ [GLCall.genTextures genId] ++ uploadTrace)

/-- Result of the `stbi_load` collaborator: failure (null return, output
parameters untouched), or success with the decoded width, height and
channel count written through the passed pointers. -/
inductive DecodeResult where
  | fail
  | ok (w h channels : Int)
deriving DecidableEq, Repr

/-- Embeds `Texture::loadFromFile(file_path, flip_vertically)`
(src/texture/texture.cpp lines 134-167). `stbi_load` is passed the
addresses of the member `width` and `height`, so a successful decode
overwrites them in place before any validation; decode failure returns
false leaving the object untouched; channel count 1 or 3 maps to `RGB`
and 4 to `RGBA`, any other count frees the decoded buffer and returns
false; otherwise the decoded buffer (non-null) is handed to
`loadFromData` and then freed. -/
def Texture.loadFromFile (dec : DecodeResult) (genId : Nat) (glError : Bool)
    (t : Texture) : Bool × Texture × List GLCall :=
  match dec with
  | DecodeResult.fail =>
    (false, t, [GLCall.stbiSetFlip, GLCall.stbiLoad])
  | DecodeResult.ok w h ch =>
    let t1 := { t with width := w, height := h }
    if ch = 1 ∨ ch = 3 then
      let r := Texture.loadFromData false w h Texture.Format.RGB genId glError t1
      (r.1, r.2.1,
       [GLCall.stbiSetFlip, GLCall.stbiLoad] ++ r.2.2 ++ [GLCall.stbiImageFree])
    else if ch = 4 then
      let r := Texture.loadFromData false w h Texture.Format.RGBA genId glError t1
      (r.1, r.2.1,
       [GLCall.stbiSetFlip, GLCall.stbiLoad] ++ r.2.2 ++ [GLCall.stbiImageFree])
    else
      (false, t1, [GLCall.stbiSetFlip, GLCall.stbiLoad, GLCall.stbiImageFree])

/-- A texture already holding a live resource with non-default attributes,
used to exhibit the failure paths that leave stale state behind. -/
def stubbornTexture : Texture :=
  { texture_id := 5, texture_type := Texture.TexType.TEXTURE_2D,
    internal_format := Texture.Format.RGB, width := 7, height := 7 }

/-- On any success of `loadFromData`, the texture holds exactly the
generated handle and the requested attributes. -/
theorem loadFromData_success_state (dataNull : Bool) (w h : Int)
    (fmt : Texture.Format) (genId : Nat) (glError : Bool) (t : Texture)
    (hok : (Texture.loadFromData dataNull w h fmt genId glError t).1 = true) :
    (Texture.loadFromData dataNull w h fmt genId glError t).2.1
      = { texture_id := genId, texture_type := Texture.TexType.TEXTURE_2D,
          internal_format := fmt, width := w, height := h } := by
  unfold Texture.loadFromData at hok ⊢
  by_cases h0 : dataNull = true ∨ w ≤ 0 ∨ h ≤ 0
  · simp [h0] at hok
  · by_cases hg : genId = 0
    · simp [h0, hg] at hok
    · by_cases he : glError = true
      · simp [h0, hg, he] at hok
      · simp [h0, hg, he]

/-- C6 as stated is false: `create` with a non-positive width on a texture
that already holds a resource returns false and issues no GL call, but
`isValid()` remains true afterwards (the early reject leaves the old
resource in place). -/
theorem create_nonpositive_still_valid_counterexample :
    (Texture.create 0 3 Texture.Format.RGBA Texture.TexType.TEXTURE_2D
        1 false stubbornTexture).1 = false
    ∧ (Texture.create 0 3 Texture.Format.RGBA Texture.TexType.TEXTURE_2D
        1 false stubbornTexture).2.1.isValid = true := by
  decide

/-- C6 amended: `create` with non-positive width or height returns false
without issuing a single GL call and leaves the texture bit-for-bit
unchanged — so `isValid()` afterwards equals `isValid()` before (false for
a texture that held no resource, true if one was already held). -/
theorem create_nonpositive_rejected (w h : Int) (fmt : Texture.Format)
    (ty : Texture.TexType) (genId : Nat) (glError : Bool) (t : Texture)
    (hwh : w ≤ 0 ∨ h ≤ 0) :
    Texture.create w h fmt ty genId glError t = (false, t, []) := by
  unfold Texture.create
  rw [if_pos hwh]

/-- Witness for amended C6 on a fresh texture at width 0. -/
theorem create_nonpositive_rejected_witness :
    Texture.create 0 3 Texture.Format.RGBA Texture.TexType.TEXTURE_2D
        1 false defaultTexture = (false, defaultTexture, []) :=
  create_nonpositive_rejected 0 3 _ _ 1 false defaultTexture (Or.inl (by decide))

/-- C5 as stated is false: when `glGenTextures` fails (handle 0) on a
texture that previously held a 7x7 RGB resource, `create` returns false
and clears the handle, but the attributes do not match a
default-constructed texture (width stays 7, format stays RGB). -/
theorem create_failure_not_default_counterexample :
    (Texture.create 3 3 Texture.Format.RGBA Texture.TexType.TEXTURE_2D
        0 false stubbornTexture).1 = false
    ∧ (Texture.create 3 3 Texture.Format.RGBA Texture.TexType.TEXTURE_2D
        0 false stubbornTexture).2.1.isValid = false
    ∧ (Texture.create 3 3 Texture.Format.RGBA Texture.TexType.TEXTURE_2D
        0 false stubbornTexture).2.1 ≠ defaultTexture := by
  decide

/-- C5 amended: on an allocation failure (`glGenTextures` yields 0) or a
GL error detected right after configuration, `create` returns false with
the handle zeroed, so `isValid()` is false — but the remaining attributes
are not rolled back to the default-constructed values: on allocation
failure they keep their prior values, and on a post-configuration error
they hold the just-requested width/height/format/type. -/
theorem create_failure_clears_handle (w h : Int) (fmt : Texture.Format)
    (ty : Texture.TexType) (genId : Nat) (glError : Bool) (t : Texture)
    (hw : 0 < w) (hh : 0 < h) (hfail : genId = 0 ∨ glError = true) :
    (Texture.create w h fmt ty genId glError t).1 = false
    ∧ (Texture.create w h fmt ty genId glError t).2.1.texture_id = 0
    ∧ (genId = 0 →
        (Texture.create w h fmt ty genId glError t).2.1
          = { t with texture_id := 0 })
    ∧ (genId ≠ 0 →
        (Texture.create w h fmt ty genId glError t).2.1
          = { texture_id := 0, texture_type := ty, internal_format := fmt,
              width := w, height := h }) := by
  have hcond : ¬(w ≤ 0 ∨ h ≤ 0) := by
    push_neg
    exact ⟨hw, hh⟩
  unfold Texture.create
  by_cases hg : genId = 0
  · simp [hcond, hg]
  · have he : glError = true := by
      rcases hfail with hfail | hfail
      · exact absurd hfail hg
      · exact hfail
    simp [hcond, hg, he]

/-- Witness for amended C5 at the allocation-failure input of the
counterexample. -/
theorem create_failure_clears_handle_witness :
    (Texture.create 3 3 Texture.Format.RGBA Texture.TexType.TEXTURE_2D
        0 false stubbornTexture).1 = false
    ∧ (Texture.create 3 3 Texture.Format.RGBA Texture.TexType.TEXTURE_2D
        0 false stubbornTexture).2.1
      = { stubbornTexture with texture_id := 0 } :=
  ⟨(create_failure_clears_handle 3 3 _ _ 0 false stubbornTexture
      (by decide) (by decide) (Or.inl rfl)).1,
   (create_failure_clears_handle 3 3 _ _ 0 false stubbornTexture
      (by decide) (by decide) (Or.inl rfl)).2.2.1 rfl⟩

/-- C4 as stated is false: a successful decode with an unsupported channel
count (2) makes `loadFromFile` return false, but the decoded dimensions
have already been written through the member pointers handed to
`stbi_load`, so the observable width changes (7 to 10). -/
theorem loadFromFile_failure_mutates_counterexample :
    (Texture.loadFromFile (DecodeResult.ok 10 9 2) 1 false
        stubbornTexture).1 = false
    ∧ (Texture.loadFromFile (DecodeResult.ok 10 9 2) 1 false
        stubbornTexture).2.1.width ≠ stubbornTexture.width := by
  decide

/-- C4 amended: on a decode failure `loadFromFile` returns false with the
texture bit-for-bit unchanged; on an unsupported channel count it returns
false with the handle and format unchanged, but with width and height
overwritten by the decoded dimensions (because `stbi_load` writes through
pointers to the member fields). No GL call is made on either path. -/
theorem loadFromFile_failure_state (w h ch : Int) (genId : Nat)
    (glError : Bool) (t : Texture) :
    Texture.loadFromFile DecodeResult.fail genId glError t
      = (false, t, [GLCall.stbiSetFlip, GLCall.stbiLoad])
    ∧ (¬(ch = 1 ∨ ch = 3 ∨ ch = 4) →
        Texture.loadFromFile (DecodeResult.ok w h ch) genId glError t
          = (false, { t with width := w, height := h },
             [GLCall.stbiSetFlip, GLCall.stbiLoad, GLCall.stbiImageFree])) := by
  constructor
  · rfl
  · intro hch
    have h13 : ¬(ch = 1 ∨ ch = 3) := by
      intro h
      rcases h with h | h
      · exact hch (Or.inl h)
      · exact hch (Or.inr (Or.inl h))
    have h4 : ¬ch = 4 := fun h => hch (Or.inr (Or.inr h))
    simp only [Texture.loadFromFile]
    rw [if_neg h13, if_neg h4]

/-- Witness for amended C4: decode failure leaves the concrete texture
untouched; a 2-channel decode fails with only width/height overwritten. -/
theorem loadFromFile_failure_state_witness :
    Texture.loadFromFile DecodeResult.fail 1 false stubbornTexture
      = (false, stubbornTexture, [GLCall.stbiSetFlip, GLCall.stbiLoad])
    ∧ Texture.loadFromFile (DecodeResult.ok 10 9 2) 1 false stubbornTexture
      = (false, { stubbornTexture with width := 10, height := 9 },
         [GLCall.stbiSetFlip, GLCall.stbiLoad, GLCall.stbiImageFree]) :=
  ⟨(loadFromFile_failure_state 10 9 2 1 false stubbornTexture).1,
   (loadFromFile_failure_state 10 9 2 1 false stubbornTexture).2 (by decide)⟩

/-- C7: for a successfully decoded image, a successful load stores format
`RGB` for channel counts 1 and 3 and `RGBA` for 4 (success is only
possible at those counts); any other channel count is a hard failure whose
whole trace is decode then buffer free — no GL call, hence no upload. -/
theorem loadFromFile_format_mapping (w h ch : Int) (genId : Nat)
    (glError : Bool) (t : Texture) :
    ((Texture.loadFromFile (DecodeResult.ok w h ch) genId glError t).1 = true →
      (ch = 1 ∨ ch = 3 ∨ ch = 4)
      ∧ (Texture.loadFromFile (DecodeResult.ok w h ch) genId glError t).2.1.internal_format
          = (if ch = 4 then Texture.Format.RGBA else Texture.Format.RGB))
    ∧ (¬(ch = 1 ∨ ch = 3 ∨ ch = 4) →
        (Texture.loadFromFile (DecodeResult.ok w h ch) genId glError t).1 = false
        ∧ (Texture.loadFromFile (DecodeResult.ok w h ch) genId glError t).2.2
          = [GLCall.stbiSetFlip, GLCall.stbiLoad, GLCall.stbiImageFree]) := by
  constructor
  · intro hok
    by_cases h13 : ch = 1 ∨ ch = 3
    · have h4 : ¬ch = 4 := by
        rcases h13 with h | h <;> subst h <;> decide
      have hok2 : (Texture.loadFromData false w h Texture.Format.RGB genId
          glError { t with width := w, height := h }).1 = true := by
        simp only [Texture.loadFromFile] at hok
        rw [if_pos h13] at hok
        exact hok
      constructor
      · rcases h13 with h | h
        · exact Or.inl h
        · exact Or.inr (Or.inl h)
      · simp only [Texture.loadFromFile]
        rw [if_pos h13, if_neg h4]
        rw [loadFromData_success_state false w h Texture.Format.RGB genId
              glError { t with width := w, height := h } hok2]
    · by_cases h4 : ch = 4
      · have hok2 : (Texture.loadFromData false w h Texture.Format.RGBA genId
            glError { t with width := w, height := h }).1 = true := by
          simp only [Texture.loadFromFile] at hok
          rw [if_neg h13, if_pos h4] at hok
          exact hok
        constructor
        · exact Or.inr (Or.inr h4)
        · simp only [Texture.loadFromFile]
          rw [if_neg h13, if_pos h4]
          rw [loadFromData_success_state false w h Texture.Format.RGBA genId
                glError { t with width := w, height := h } hok2]
          rw [if_pos h4]
      · exfalso
        simp only [Texture.loadFromFile] at hok
        rw [if_neg h13, if_neg h4] at hok
        exact Bool.false_ne_true hok
  · intro hch
    have h13 : ¬(ch = 1 ∨ ch = 3) := by
      intro h
      rcases h with h | h
      · exact hch (Or.inl h)
      · exact hch (Or.inr (Or.inl h))
    have h4 : ¬ch = 4 := fun h => hch (Or.inr (Or.inr h))
    simp only [Texture.loadFromFile]
    rw [if_neg h13, if_neg h4]
    exact ⟨rfl, rfl⟩

/-- Witness for C7: a successful 4-channel load of a fresh texture yields
format RGBA, and a 2-channel decode fails with the decode-free trace. -/
theorem loadFromFile_format_mapping_witness :
    (Texture.loadFromFile (DecodeResult.ok 5 6 4) 1 false
        defaultTexture).2.1.internal_format = Texture.Format.RGBA
    ∧ (Texture.loadFromFile (DecodeResult.ok 5 6 2) 1 false
        defaultTexture).1 = false := by
  refine ⟨?_, ?_⟩
  · have h := (loadFromFile_format_mapping 5 6 4 1 false defaultTexture).1
      (by decide)
    simpa using h.2
  · exact ((loadFromFile_format_mapping 5 6 2 1 false defaultTexture).2
      (by decide)).1


/-! ## Primitive drawers (src/shader/geometry/) -/

set_option linter.unusedVariables false

/-- One call issued by a primitive drawer: a Program compilation attempt
(with its outcome), GL geometry and uniform calls, or a Program teardown.
Draw functions return the calls they made, so that "compiled exactly once"
and "buffers allocated/freed per call" are statements about the trace. -/
inductive RCall where
  | compileProgram (ok : Bool)
  | useProgram
  | getUniformLocation
  | setUniform
  | genVertexArrays
  | bindVertexArray
  | genBuffers
  | bindBuffer
  | bufferData
  | vertexAttribPointer
  | enableVertexAttribArray
  | activeTexture
  | bindTexture2D
  | drawElements
  | drawFullScreenQuad
  | drawArrays
  | deleteVertexArrays
  | deleteBuffers
  | destroyProgram
deriving DecidableEq, Repr

/-- True on a Program-compilation attempt. -/
def isCompileCall : RCall → Bool
  | RCall.compileProgram _ => true
  | _ => false

/-- Number of Program-compilation attempts in a trace. -/
def compileCount (tr : List RCall) : Nat :=
  tr.countP isCompileCall

/-- True on a geometry-object allocation (`glGenVertexArrays` or
`glGenBuffers`). -/
def isGeometryGenCall : RCall → Bool
  | RCall.genVertexArrays => true
  | RCall.genBuffers => true
  | _ => false

/-- True on a geometry-object release (`glDeleteVertexArrays` or
`glDeleteBuffers`). -/
def isGeometryDeleteCall : RCall → Bool
  | RCall.deleteVertexArrays => true
  | RCall.deleteBuffers => true
  | _ => false

/-- Number of geometry-object allocations in a trace. -/
def geometryGenCount (tr : List RCall) : Nat :=
  tr.countP isGeometryGenCall

/-- Number of geometry-object releases in a trace. -/
def geometryDeleteCount (tr : List RCall) : Nat :=
  tr.countP isGeometryDeleteCall

/-- Whether a `circle` draw call ran to completion or threw
`std::runtime_error` because the shader failed to load. -/
inductive CircleOutcome where
  | finished
  | threw
deriving DecidableEq, Repr

namespace Render

/-- The calls `circle` makes once its shader is valid
(src/shader/geometry/circle.cpp lines 19-27): bind the Program, upload the
resolution, position, radius and color uniforms, draw the full-screen
quad. -/
def circleDrawTrace : List RCall :=
  [RCall.useProgram,
   RCall.getUniformLocation, RCall.setUniform,
   RCall.getUniformLocation, RCall.setUniform,
   RCall.getUniformLocation, RCall.setUniform,
   RCall.getUniformLocation, RCall.setUniform,
   RCall.drawFullScreenQuad]

/-- Embeds `Render::circle(x, y, radius, r, g, b, a)`
(src/shader/geometry/circle.cpp lines 12-28) acting on the static
`circleShader`, whose state is its validity flag (the `Shader` class is
modelled from the spec's Program capability: a compile that succeeds makes
it valid, `destroy` invalidates it). If the shader is not valid it is
compiled now — `compileOk` is the collaborator's outcome; a failed compile
throws and leaves the shader invalid, so a later call retries. Returns the
outcome, the new validity flag, and the trace. -/
def circle (x y radius r g b a : Float) (compileOk : Bool) (valid : Bool) :
    CircleOutcome × Bool × List RCall :=
  if valid then
    (CircleOutcome.finished, true, circleDrawTrace)
  else if compileOk then
    (CircleOutcome.finished, true, RCall.compileProgram true :: circleDrawTrace)
  else
    (CircleOutcome.threw, false, [RCall.compileProgram false])

/-- Embeds `Render::_destroyCircle()` (src/shader/geometry/circle.cpp
lines 30-32): destroys the cached Program, leaving the shader invalid so a
future draw recompiles. -/
def _destroyCircle (valid : Bool) : Bool × List RCall :=
  (false, [RCall.destroyProgram])

/-- `n` successive `circle` calls starting from shader-validity `valid`,
returning the final validity flag and the concatenated trace. -/
def circleN (x y radius r g b a : Float) (compileOk : Bool) :
    Nat → Bool → Bool × List RCall
  | 0, valid => (valid, [])
  | Nat.succ n, valid =>
    let step := circle x y radius r g b a compileOk valid
    let rest := circleN x y radius r g b a compileOk n step.2.1
    (rest.1, step.2.2 ++ rest.2)

/-- Embeds `initializeTextureQuad` (src/shader/geometry/texture_quad.cpp
lines 20-71): compile the shader if it is not yet valid (short-circuit: no
compile attempt when already valid), failing if the compile fails; then
unconditionally generate and fill a fresh VAO, VBO and EBO. -/
def initializeTextureQuad (compileOk : Bool) (valid : Bool) :
    Bool × Bool × List RCall :=
  if !valid && !compileOk then
    (false, valid, [RCall.compileProgram false])
  else
    let compileTrace :=
      if valid then ([] : List RCall) else [RCall.compileProgram true]
    (true, true,
     compileTrace ++
       [RCall.genVertexArrays, RCall.bindVertexArray,
        RCall.genBuffers, RCall.bindBuffer, RCall.bufferData,
        RCall.genBuffers, RCall.bindBuffer, RCall.bufferData,
        RCall.vertexAttribPointer, RCall.enableVertexAttribArray])

/-- The calls `textureQuad` makes after a successful initialization
(src/shader/geometry/texture_quad.cpp lines 89-119): bind the Program,
upload the resolution, rect, subtexture, color and sampler uniforms, bind
the texture and the VAO, draw, unbind, then delete the VAO, VBO and EBO it
created this call. -/
def tqDrawTrace : List RCall :=
  [RCall.useProgram,
   RCall.getUniformLocation, RCall.setUniform,
   RCall.getUniformLocation, RCall.setUniform,
   RCall.getUniformLocation, RCall.setUniform,
   RCall.getUniformLocation, RCall.setUniform,
   RCall.activeTexture, RCall.bindTexture2D,
   RCall.getUniformLocation, RCall.setUniform,
   RCall.bindVertexArray, RCall.drawElements,
   RCall.bindVertexArray, RCall.bindTexture2D,
   RCall.deleteVertexArrays, RCall.deleteBuffers, RCall.deleteBuffers]

/-- Embeds `Render::textureQuad(textureID, x, y, w, h, subX, subY, subW,
subH, r, g, b, a)` (src/shader/geometry/texture_quad.cpp lines 73-120):
run `initializeTextureQuad` — on failure print and return — then draw and
delete the per-call VAO/VBO/EBO. Returns the shader validity and trace. -/
def textureQuad (textureID : Nat)
    (x y w h subX subY subW subH r g b a : Float)
    (compileOk : Bool) (valid : Bool) : Bool × List RCall :=
  let ini := initializeTextureQuad compileOk valid
  if ini.1 then
    (ini.2.1, ini.2.2 ++ tqDrawTrace)
  else
    (ini.2.1, ini.2.2)

/-- Embeds `Render::_destroyTextureQuad()`
(src/shader/geometry/texture_quad.cpp lines 122-124): destroys only the
cached Program — it owns no geometry buffers to release. -/
def _destroyTextureQuad (valid : Bool) : Bool × List RCall :=
  (false, [RCall.destroyProgram])

/-- `n` successive `textureQuad` calls starting from shader-validity
`valid`, returning the final validity flag and the concatenated trace. -/
def textureQuadN (textureID : Nat)
    (x y w h subX subY subW subH r g b a : Float) (compileOk : Bool) :
    Nat → Bool → Bool × List RCall
  | 0, valid => (valid, [])
  | Nat.succ n, valid =>
    let step := textureQuad textureID x y w h subX subY subW subH r g b a
      compileOk valid
    let rest := textureQuadN textureID x y w h subX subY subW subH r g b a
      compileOk n step.1
    (rest.1, step.2 ++ rest.2)

/-- Modelled from the spec: the polyline drawer `lines(vertices, r, g, b,
a)` declared in src/shader/geometry/lines.hpp, whose implementation file
is not present in the sources. Per spec section 4.2 it lazily compiles its
Program on first use (a failed compile fails the call and is retried
later), binds it, uploads the resolution and color uniforms, uploads the
vertex list into a geometry buffer, draws, and frees the per-call buffer. -/
def lines (vertices : List Float) (r g b a : Float) (compileOk : Bool)
    (valid : Bool) : Bool × List RCall :=
  if !valid && !compileOk then
    (false, [RCall.compileProgram false])
  else
    let compileTrace :=
      if valid then ([] : List RCall) else [RCall.compileProgram true]
    (true,
     compileTrace ++
       [RCall.useProgram,
        RCall.getUniformLocation, RCall.setUniform,
        RCall.getUniformLocation, RCall.setUniform,
        RCall.genVertexArrays, RCall.genBuffers, RCall.bufferData,
        RCall.drawArrays,
        RCall.deleteVertexArrays, RCall.deleteBuffers])

/-- Embeds `Render::line(x1, y1, x2, y2, r, g, b, a)`
(src/shader/geometry/line.cpp lines 9-12): build the vector
`[x1, y1, x2, y2]` and delegate wholesale to `lines`. -/
def line (x1 y1 x2 y2 r g b a : Float) (compileOk : Bool) (valid : Bool) :
    Bool × List RCall :=
  lines [x1, y1, x2, y2] r g b a compileOk valid

/-- Embeds `Render::_destroyLine()` (src/shader/geometry/line.cpp lines
14-16): an empty body — the single-line drawer owns no resources of its
own. -/
def _destroyLine : List RCall :=
  []

end Render

/-- Once the circle shader is valid, any number of further `circle` calls
keeps it valid and performs no compilation. -/
theorem circleN_valid_no_compile (x y radius r g b a : Float)
    (compileOk : Bool) :
    ∀ n : Nat,
      (Render.circleN x y radius r g b a compileOk n true).1 = true
      ∧ compileCount (Render.circleN x y radius r g b a compileOk n true).2
          = 0 := by
  intro n
  induction n with
  | zero => exact ⟨rfl, rfl⟩
  | succ m ih =>
    constructor
    · exact ih.1
    · show List.countP isCompileCall
        (Render.circleDrawTrace
          ++ (Render.circleN x y radius r g b a compileOk m true).2) = 0
      rw [List.countP_append]
      have h0 : List.countP isCompileCall Render.circleDrawTrace = 0 := rfl
      have h1 := ih.2
      unfold compileCount at h1
      omega

/-- Once the texture-quad shader is valid, any number of further
`textureQuad` calls keeps it valid and performs no compilation. -/
theorem textureQuadN_valid_no_compile (textureID : Nat)
    (x y w h subX subY subW subH r g b a : Float) (compileOk : Bool) :
    ∀ n : Nat,
      (Render.textureQuadN textureID x y w h subX subY subW subH r g b a
        compileOk n true).1 = true
      ∧ compileCount
          (Render.textureQuadN textureID x y w h subX subY subW subH r g b a
            compileOk n true).2 = 0 := by
  intro n
  induction n with
  | zero => exact ⟨rfl, rfl⟩
  | succ m ih =>
    constructor
    · exact ih.1
    · show List.countP isCompileCall
        ((Render.textureQuad textureID x y w h subX subY subW subH r g b a
            compileOk true).2
          ++ (Render.textureQuadN textureID x y w h subX subY subW subH r g b a
              compileOk m true).2) = 0
      rw [List.countP_append]
      have h0 : List.countP isCompileCall
          (Render.textureQuad textureID x y w h subX subY subW subH r g b a
            compileOk true).2 = 0 := by
        cases compileOk <;> rfl
      have h1 := ih.2
      unfold compileCount at h1
      omega

/-- C1: starting from the process-fresh state (no Program yet) and with
the compile collaborator succeeding, `n` draw calls (`n` at least 1) of
the circle kind or of the textured-quad kind perform exactly one Program
compilation, and the Program is still valid after the last call. -/
theorem program_compiled_once_per_kind (n : Nat) (hn : 1 ≤ n) :
    (∀ x y radius r g b a : Float,
      compileCount (Render.circleN x y radius r g b a true n false).2 = 1
      ∧ (Render.circleN x y radius r g b a true n false).1 = true)
    ∧ (∀ (textureID : Nat) (x y w h subX subY subW subH r g b a : Float),
      compileCount
        (Render.textureQuadN textureID x y w h subX subY subW subH r g b a
          true n false).2 = 1
      ∧ (Render.textureQuadN textureID x y w h subX subY subW subH r g b a
          true n false).1 = true) := by
  obtain ⟨m, rfl⟩ : ∃ m, n = m + 1 := ⟨n - 1, by omega⟩
  constructor
  · intro x y radius r g b a
    have ih := circleN_valid_no_compile x y radius r g b a true m
    constructor
    · show List.countP isCompileCall
        ((RCall.compileProgram true :: Render.circleDrawTrace)
          ++ (Render.circleN x y radius r g b a true m true).2) = 1
      rw [List.countP_append]
      have h0 : List.countP isCompileCall
          (RCall.compileProgram true :: Render.circleDrawTrace) = 1 := rfl
      have h1 := ih.2
      unfold compileCount at h1
      omega
    · exact ih.1
  · intro textureID x y w h subX subY subW subH r g b a
    have ih := textureQuadN_valid_no_compile textureID x y w h subX subY subW
      subH r g b a true m
    constructor
    · show List.countP isCompileCall
        ((Render.textureQuad textureID x y w h subX subY subW subH r g b a
            true false).2
          ++ (Render.textureQuadN textureID x y w h subX subY subW subH r g b a
              true m true).2) = 1
      rw [List.countP_append]
      have h0 : List.countP isCompileCall
          (Render.textureQuad textureID x y w h subX subY subW subH r g b a
            true false).2 = 1 := rfl
      have h1 := ih.2
      unfold compileCount at h1
      omega
    · exact ih.1

/-- Witness for C1 at three draw calls of each kind. -/
theorem program_compiled_once_per_kind_witness :
    compileCount (Render.circleN 0 0 0 0 0 0 0 true 3 false).2 = 1
    ∧ compileCount
        (Render.textureQuadN 1 0 0 0 0 0 0 0 0 0 0 0 0 true 3 false).2 = 1 :=
  ⟨((program_compiled_once_per_kind 3 (by decide)).1 0 0 0 0 0 0 0).1,
   ((program_compiled_once_per_kind 3 (by decide)).2 1 0 0 0 0 0 0 0 0 0 0 0 0).1⟩

/-- C2 is false of the code: a single `textureQuad` call (shader compiling
fine) allocates three geometry objects (VAO, VBO, EBO) and deletes all
three before returning; two calls allocate six; and the kind's destroy
function releases only the Program — there is no cached geometry buffer at
all. The doc comment "initialize ... if needed" and the spec's
lazy-shared-buffer contract both describe the intended caching that the
code does not perform. -/
theorem textureQuad_buffers_per_call :
    geometryGenCount (Render.textureQuad 1 0 0 0 0 0 0 0 0 0 0 0 0
        true false).2 = 3
    ∧ geometryDeleteCount (Render.textureQuad 1 0 0 0 0 0 0 0 0 0 0 0 0
        true false).2 = 3
    ∧ geometryGenCount (Render.textureQuadN 1 0 0 0 0 0 0 0 0 0 0 0 0
        true 2 false).2 = 6
    ∧ Render._destroyTextureQuad true = (false, [RCall.destroyProgram]) :=
  ⟨rfl, rfl, rfl, rfl⟩

/-- C9: drawing one line segment is, verbatim in the code, drawing the
two-point polyline `[x1, y1, x2, y2]` — the same `lines` Program and
buffer logic, with identical resulting state and trace. -/
theorem line_is_two_point_polyline (x1 y1 x2 y2 r g b a : Float)
    (compileOk valid : Bool) :
    Render.line x1 y1 x2 y2 r g b a compileOk valid
      = Render.lines [x1, y1, x2, y2] r g b a compileOk valid :=
  rfl
